import Mathlib

/-
Shallow embedding of `src/address.py`: the `Address` class and the
module-level helper `territory_codes`, together with the external
`pycountry` lookup tables the class queries, modelled as an explicit
`TerritoryDirectory` value passed to every operation that consults it.

Python strings become `String`, `None`-able attributes become
`Option String`, mutation becomes explicit state passing, and every
`raise` becomes an `Except.error` carrying the kind of exception the
source raises (`ValueError` subcases keyed by their message,
`KeyError`/`TypeError`/`AttributeError` from the dict-like protocol and
attribute lookup).
-/

/-- Python string truthiness for an optional string attribute: `None` and
the empty string are falsy, every other string (including whitespace-only
ones) is truthy. -/
def truthy : Option String → Bool
  | none => false
  | some s => s != ""

/-- Whitespace recognised by Python's `str.strip()`, restricted to the
ASCII whitespace characters: space, `\t`, `\n`, `\x0b`, `\x0c`, `\r`. -/
def isPySpace (c : Char) : Bool := decide (c.toNat = 32 ∨ (9 ≤ c.toNat ∧ c.toNat ≤ 13))

/-- Python `str.strip()`: drop leading and trailing whitespace. -/
def pyStrip (s : String) : String := ⟨(s.data.dropWhile isPySpace).rdropWhile isPySpace⟩

/-- Python `str.upper()` over the ASCII alphabet: uppercase each character. -/
def pyUpper (s : String) : String := ⟨s.data.map Char.toUpper⟩

/-- The composite `s.strip().upper()` applied to the ISO codes in
`Address.validate`. -/
def pyStripUpper (s : String) : String := pyUpper (pyStrip s)

/-- One record of `pycountry.countries`: an ISO 3166-1 country. -/
structure Country where
  alpha2 : String
  name : String
deriving DecidableEq, Repr

/-- One record of `pycountry.subdivisions`: an ISO 3166-2 subdivision,
carrying its parent country's alpha-2 code. -/
structure Subdivision where
  code : String
  name : String
  type : String
  country_code : String
deriving DecidableEq, Repr

/-- The external reference data (`pycountry.countries` and
`pycountry.subdivisions`) the module imports. -/
structure TerritoryDirectory where
  countries : List Country
  subdivisions : List Subdivision
deriving DecidableEq, Repr

/-- Lookup `countries.get(alpha2=code)`; `none` models the `KeyError` the
provider raises when the code is unknown. -/
def TerritoryDirectory.findCountry (d : TerritoryDirectory) (alpha2 : String) : Option Country :=
  d.countries.find? (fun c => c.alpha2 == alpha2)

/-- Lookup `subdivisions.get(code=code)`; `none` models the `KeyError`. -/
def TerritoryDirectory.findSubdivision (d : TerritoryDirectory) (code : String) :
    Option Subdivision :=
  d.subdivisions.find? (fun s => s.code == code)

/-- Module-level `territory_codes()`: `chain(imap(attrgetter('alpha2'),
countries), imap(attrgetter('code'), subdivisions))`, i.e. every country
alpha-2 code followed by every subdivision code. -/
def territory_codes (d : TerritoryDirectory) : List String :=
  d.countries.map Country.alpha2 ++ d.subdivisions.map Subdivision.code

/-- The exceptions `Address.__init__`/`Address.validate` raise: the
`KeyError` for unsupported components, and the four `ValueError`s keyed by
their message. -/
inductive AddrError where
  | unknownComponents (keys : List String)
  | invalidSubdivision (code : String)
  | invalidCountry (code : String)
  | countryMismatch (country_code subdivision_code : String)
  | missingField (field : String)
deriving DecidableEq, Repr

/-- Exceptions raised by the dict-like protocol and by attribute lookup. -/
inductive PyErr where
  | typeError
  | keyError
  | attributeError (name : String)
deriving DecidableEq, Repr

/-- A Python value used as a subscript key: a string, or one of the
non-string shapes a caller could pass (an int, `None`). -/
inductive PyKey where
  | str (s : String)
  | int (n : Int)
  | noneKey
deriving DecidableEq, Repr

/-- Whether the key is a `basestring` in the source's `isinstance` check. -/
def PyKey.isStr : PyKey → Bool
  | .str _ => true
  | _ => false

/-- The state of an `Address` instance: the six writable attributes
registered by `__init__` from `_components`, each either a string or
`None`. -/
structure Address where
  line1 : Option String
  line2 : Option String
  zip_code : Option String
  city : Option String
  country_code : Option String
  subdivision_code : Option String
deriving DecidableEq, Repr

/-- The class attribute `_components`: IDs of the address'
base-components, in source order. -/
def Address._components : List String :=
  ["line1", "line2", "zip_code", "city", "country_code", "subdivision_code"]

/-- The class attribute `REQUIRED_FIELDS`: fields tested on `validate()`. -/
def Address.REQUIRED_FIELDS : List String :=
  ["line1", "zip_code", "city", "country_code"]

/-- Instance attribute lookup by name (`getattr`): `some` for the six
attributes `__init__` registers, `none` (= `AttributeError`) otherwise. -/
def Address.getComp? (a : Address) (k : String) : Option (Option String) :=
  if k == "line1" then some a.line1
  else if k == "line2" then some a.line2
  else if k == "zip_code" then some a.zip_code
  else if k == "city" then some a.city
  else if k == "country_code" then some a.country_code
  else if k == "subdivision_code" then some a.subdivision_code
  else none

/-- Attribute read on a name known to be a component (`getattr` on a
member of `_components`; the `none` default is unreachable there). -/
def Address.getComp (a : Address) (k : String) : Option String := (a.getComp? k).getD none

/-- Attribute write by name (`setattr`) for the six components; identity on
other names (unreachable: callers check membership in `_components`). -/
def Address.setComp (a : Address) (k : String) (v : Option String) : Address :=
  if k == "line1" then { a with line1 := v }
  else if k == "line2" then { a with line2 := v }
  else if k == "zip_code" then { a with zip_code := v }
  else if k == "city" then { a with city := v }
  else if k == "country_code" then { a with country_code := v }
  else if k == "subdivision_code" then { a with subdivision_code := v }
  else a

/-- The string value of `self.country_code` where the source reads it as a
string (only on paths where it is truthy). -/
def Address.ccStr (a : Address) : String := a.country_code.getD ""

/-- The string value of `self.subdivision_code` where the source reads it
as a string (only on paths where it is truthy). -/
def Address.scStr (a : Address) : String := a.subdivision_code.getD ""

/-- Step 1 of `validate()`: `strip().upper()` each of the two ISO codes
when it is truthy. -/
def Address.normCodes (a : Address) : Address :=
  let a1 := if truthy a.country_code then
    { a with country_code := some (pyStripUpper a.ccStr) } else a
  if truthy a1.subdivision_code then
    { a1 with subdivision_code := some (pyStripUpper a1.scStr) } else a1

/-- Normalize an empty/blank value to `None` (the body of the step-2 loop
for one component). -/
def coerceBlank (v : Option String) : Option String := if truthy v then v else none

/-- Step 2 of `validate()`: the loop over `_components` replacing each
falsy attribute by `None`. -/
def Address.coerceBlanks (a : Address) : Address :=
  { line1 := coerceBlank a.line1
    line2 := coerceBlank a.line2
    zip_code := coerceBlank a.zip_code
    city := coerceBlank a.city
    country_code := coerceBlank a.country_code
    subdivision_code := coerceBlank a.subdivision_code }

/-- Step 3 of `validate()`: swap the two lines if the first is empty and
the second is not. -/
def Address.swapLines (a : Address) : Address :=
  if truthy a.line2 ∧ ¬ truthy a.line1 then { a with line1 := a.line2, line2 := a.line1 } else a

/-- The in-place normalization prefix of `validate()` (steps 1–3). -/
def Address.normStep (a : Address) : Address := a.normCodes.coerceBlanks.swapLines

/-- The parent country code `subdivisions.get(code=...).country_code` of
the record's subdivision (`""` when absent; only read on paths where the
subdivision was already looked up successfully). -/
def Address.subParent (d : TerritoryDirectory) (a : Address) : String :=
  ((d.findSubdivision a.scStr).map Subdivision.country_code).getD ""

/-- The derivation step of `validate()`: set `country_code` from the
subdivision's parent when the former is falsy and the latter truthy. -/
def Address.deriveCountry (d : TerritoryDirectory) (a : Address) : Address :=
  if truthy a.subdivision_code ∧ ¬ truthy a.country_code then
    { a with country_code := some (a.subParent d) }
  else a

/-- The method `Address.validate`: normalize fields in place and check
consistency, raising the first applicable `ValueError`. -/
def Address.validate (d : TerritoryDirectory) (a0 : Address) : Except AddrError Address :=
  let a := a0.normStep
  if truthy a.subdivision_code ∧ (d.findSubdivision a.scStr).isNone then
    .error (.invalidSubdivision a.scStr)
  else if truthy a.country_code ∧ (d.findCountry a.ccStr).isNone then
    .error (.invalidCountry a.ccStr)
  else
    let b := a.deriveCountry d
    if truthy b.country_code ∧ truthy b.subdivision_code ∧ b.subParent d ≠ b.ccStr then
      .error (.countryMismatch b.ccStr b.scStr)
    else
      match Address.REQUIRED_FIELDS.find? (fun f => ! truthy (b.getComp f)) with
      | some f => .error (.missingField f)
      | none => .ok b

/-- The keyword-argument read `kwargs.get(component_id, None)`. -/
def kwargsGet (kwargs : List (String × Option String)) (k : String) : Option String :=
  ((kwargs.find? (fun kv => kv.1 == k)).map Prod.snd).getD none

/-- The constructor `Address.__init__`: reject unknown component names with
a `KeyError` naming them (`set(kwargs.keys()).difference(_components)`;
keyword arguments carry distinct keys, so a plain filter lists the same
names), load the six components (absent ones default to `None`), then
normalize and validate right away. -/
def Address.init (d : TerritoryDirectory) (kwargs : List (String × Option String)) :
    Except AddrError Address :=
  let unknown := (kwargs.map Prod.fst).filter (fun k => ! Address._components.contains k)
  if unknown ≠ [] then .error (.unknownComponents unknown)
  else
    let a : Address :=
      { line1 := kwargsGet kwargs "line1"
        line2 := kwargsGet kwargs "line2"
        zip_code := kwargsGet kwargs "zip_code"
        city := kwargsGet kwargs "city"
        country_code := kwargsGet kwargs "country_code"
        subdivision_code := kwargsGet kwargs "subdivision_code" }
    a.validate d

/-- The method `Address.__getitem__`: `TypeError` on a non-string key,
`KeyError` on a string key outside `_components`, else the attribute. -/
def Address.getitem (a : Address) (k : PyKey) : Except PyErr (Option String) :=
  match k with
  | .str s =>
    if Address._components.contains s then
      match a.getComp? s with
      | some v => .ok v
      | none => .error (.attributeError s)
    else .error .keyError
  | _ => .error .typeError

/-- The method `Address.__setitem__`: `TypeError` on a non-string key,
`KeyError` on a string key outside `_components`, else write the
attribute. -/
def Address.setitem (a : Address) (k : PyKey) (v : Option String) : Except PyErr Address :=
  match k with
  | .str s =>
    if Address._components.contains s then .ok (a.setComp s v)
    else .error .keyError
  | _ => .error .typeError

/-- The method `Address.__iter__`/`Address.keys`: the component IDs in
source order. -/
def Address.keys : List String := Address._components

/-- The method `Address.__len__`: the number of components. -/
def Address.len : Nat := Address._components.length

/-- The method `Address.values`: the component values in source order. -/
def Address.values (a : Address) : List (Option String) :=
  Address._components.map (fun k => a.getComp k)

/-- The method `Address.items`: component IDs and values in source order. -/
def Address.items (a : Address) : List (String × Option String) :=
  Address._components.map (fun k => (k, a.getComp k))

/-- The property `Address.valid`: `validate()` with `ValueError` swallowed
into a boolean. -/
def Address.valid (d : TerritoryDirectory) (a : Address) : Bool :=
  match a.validate d with
  | .ok _ => true
  | .error _ => false

/-- The property `Address.empty`: true only when the five value-bearing
fields other than `subdivision_code` are all falsy. -/
def Address.empty (a : Address) : Bool :=
  ! (truthy a.line1 || truthy a.line2 || truthy a.zip_code || truthy a.city ||
     truthy a.country_code)

/-- The property `Address.country_name`: the country's name via the
directory; `countries.get` propagates a raw `KeyError` when the code is
unknown. -/
def Address.country_name (d : TerritoryDirectory) (a : Address) : Except PyErr (Option String) :=
  if truthy a.country_code then
    match d.findCountry a.ccStr with
    | some c => .ok (some c.name)
    | none => .error .keyError
  else .ok none

/-- The property `Address.subdivision_name`. -/
def Address.subdivision_name (d : TerritoryDirectory) (a : Address) :
    Except PyErr (Option String) :=
  if truthy a.subdivision_code then
    match d.findSubdivision a.scStr with
    | some s => .ok (some s.name)
    | none => .error .keyError
  else .ok none

/-- The property `Address.subdivision_type`. -/
def Address.subdivision_type (d : TerritoryDirectory) (a : Address) :
    Except PyErr (Option String) :=
  if truthy a.subdivision_code then
    match d.findSubdivision a.scStr with
    | some s => .ok (some s.type)
    | none => .error .keyError
  else .ok none

/-- The method `Address.render`: build the address block line by line.
The third line reads `self.state`, which is not among the instance
attributes `__init__` registers (`_components`) and is defined by no
property of the class, so that attribute lookup raises `AttributeError`. -/
def Address.render (d : TerritoryDirectory) (a : Address) (separator : String := "\n") :
    Except PyErr String := do
  let lines := (if truthy a.line1 then [a.line1.getD ""] else []) ++
               (if truthy a.line2 then [a.line2.getD ""] else [])
  let els := if truthy a.city then [a.city.getD ""] else []
  let st ← match a.getComp? "state" with
    | some v => Except.ok v
    | none => Except.error (.attributeError "state")
  let els := els ++ (if truthy st then [st.getD ""] else [])
  let els := [String.intercalate ", " els]
  let els := if truthy a.zip_code then a.zip_code.getD "" :: els else els
  let line3 := String.intercalate " - " els
  let lines := lines ++ (if line3 != "" then [line3] else [])
  let cn ← a.country_name d
  let lines := lines ++ (if truthy cn then [cn.getD ""] else [])
  return String.intercalate separator lines

/-- A sample of the external pycountry reference data used to instantiate
the theorems: the countries and subdivisions the spec's examples name. -/
def sampleDir : TerritoryDirectory :=
  { countries := [⟨"CA", "Canada"⟩, ⟨"FR", "France"⟩, ⟨"US", "United States"⟩]
    subdivisions := [⟨"CA-ON", "Ontario", "Province", "CA"⟩,
                     ⟨"US-CA", "California", "State", "US"⟩] }

/- Helper lemmas about the string normalization `strip().upper()`. -/

theorem char_toNat_ofNat {n : Nat} (h : n < 0xd800) : (Char.ofNat n).toNat = n := by
  simp [Char.ofNat, Nat.isValidChar, h, Char.ofNatAux, Char.toNat, UInt32.toNat]

theorem char_toUpper_eq (c : Char) :
    c.toUpper = if c.toNat ≥ 97 ∧ c.toNat ≤ 122 then Char.ofNat (c.toNat - 32) else c := rfl

theorem toUpper_toUpper (c : Char) : c.toUpper.toUpper = c.toUpper := by
  by_cases h : c.toNat ≥ 97 ∧ c.toNat ≤ 122
  · rw [char_toUpper_eq c, if_pos h, char_toUpper_eq, char_toNat_ofNat (by omega),
      if_neg (by omega)]
  · rw [char_toUpper_eq c, if_neg h, char_toUpper_eq, if_neg h]

theorem isPySpace_toUpper (c : Char) : isPySpace c.toUpper = isPySpace c := by
  by_cases h : c.toNat ≥ 97 ∧ c.toNat ≤ 122
  · rw [char_toUpper_eq c, if_pos h]
    simp only [isPySpace, char_toNat_ofNat (show c.toNat - 32 < 0xd800 by omega)]
    rw [decide_eq_decide]
    omega
  · rw [char_toUpper_eq c, if_neg h]

/-- Left-then-right whitespace stripping on the character list. -/
def stripList (l : List Char) : List Char := (l.dropWhile isPySpace).rdropWhile isPySpace

theorem pyStrip_data (s : String) : (pyStrip s).data = stripList s.data := rfl

theorem pyUpper_data (s : String) : (pyUpper s).data = s.data.map Char.toUpper := rfl

theorem stripList_idem (l : List Char) : stripList (stripList l) = stripList l := by
  have hdrop : (stripList l).dropWhile isPySpace = stripList l := by
    rcases h : stripList l with _ | ⟨c, t⟩
    · rfl
    · rw [List.dropWhile_eq_self_iff]
      intro hl
      rw [List.get_mk_zero]
      have hpre : stripList l <+: l.dropWhile isPySpace := List.rdropWhile_prefix _ _
      rw [h] at hpre
      have hne : (c :: t) ≠ ([] : List Char) := by simp
      have hhead := hpre.head hne
      have hlen : 0 < (l.dropWhile isPySpace).length := by
        have := hpre.length_le
        simp at this ⊢
        omega
      have := List.dropWhile_get_zero_not isPySpace l hlen
      rw [List.get_mk_zero, ← hhead] at this
      simpa [h] using this
  calc stripList (stripList l)
      = ((stripList l).dropWhile isPySpace).rdropWhile isPySpace := rfl
    _ = (stripList l).rdropWhile isPySpace := by rw [hdrop]
    _ = ((l.dropWhile isPySpace).rdropWhile isPySpace).rdropWhile isPySpace := rfl
    _ = stripList l := List.rdropWhile_idempotent _ _

theorem stripList_map_toUpper (l : List Char) :
    stripList (l.map Char.toUpper) = (stripList l).map Char.toUpper := by
  have hfun : (isPySpace ∘ Char.toUpper) = isPySpace := funext isPySpace_toUpper
  have hdw : ∀ m : List Char, (m.map Char.toUpper).dropWhile isPySpace
      = (m.dropWhile isPySpace).map Char.toUpper := by
    intro m
    rw [List.dropWhile_map, hfun]
  have hrdw : ∀ m : List Char, (m.map Char.toUpper).rdropWhile isPySpace
      = (m.rdropWhile isPySpace).map Char.toUpper := by
    intro m
    simp only [List.rdropWhile, ← List.map_reverse, hdw]
  rw [stripList, hdw, hrdw]
  rfl

theorem pyStripUpper_fix (s : String) : pyStripUpper (pyStripUpper s) = pyStripUpper s := by
  have hdata : (pyStripUpper (pyStripUpper s)).data = (pyStripUpper s).data := by
    simp only [pyStripUpper, pyUpper_data, pyStrip_data, stripList_map_toUpper, stripList_idem,
      List.map_map]
    rw [show (Char.toUpper ∘ Char.toUpper) = Char.toUpper from funext toUpper_toUpper]
  exact congrArg String.mk hdata

/- Field-projection lemmas for the normalization steps. -/

@[simp] theorem Address.swapLines_zip (a : Address) : a.swapLines.zip_code = a.zip_code := by
  rw [Address.swapLines]; split <;> rfl

@[simp] theorem Address.swapLines_city (a : Address) : a.swapLines.city = a.city := by
  rw [Address.swapLines]; split <;> rfl

@[simp] theorem Address.swapLines_cc (a : Address) : a.swapLines.country_code = a.country_code := by
  rw [Address.swapLines]; split <;> rfl

@[simp] theorem Address.swapLines_sc (a : Address) :
    a.swapLines.subdivision_code = a.subdivision_code := by
  rw [Address.swapLines]; split <;> rfl

theorem Address.normCodes_line1 (a : Address) : a.normCodes.line1 = a.line1 := by
  simp only [Address.normCodes]; split <;> split <;> rfl

theorem Address.normCodes_line2 (a : Address) : a.normCodes.line2 = a.line2 := by
  simp only [Address.normCodes]; split <;> split <;> rfl

theorem Address.normCodes_zip (a : Address) : a.normCodes.zip_code = a.zip_code := by
  simp only [Address.normCodes]; split <;> split <;> rfl

theorem Address.normCodes_city (a : Address) : a.normCodes.city = a.city := by
  simp only [Address.normCodes]; split <;> split <;> rfl

theorem Address.normCodes_cc (a : Address) : a.normCodes.country_code =
    (if truthy a.country_code then some (pyStripUpper a.ccStr) else a.country_code) := by
  simp only [Address.normCodes]; split <;> split <;> rfl

theorem Address.normCodes_sc (a : Address) : a.normCodes.subdivision_code =
    (if truthy a.subdivision_code then some (pyStripUpper a.scStr) else a.subdivision_code) := by
  simp only [Address.normCodes]
  split <;> split <;> rfl

/-- An optional field value that is either absent or a non-empty string
(the only shapes the blank-coercion loop can leave behind). -/
def noneOrTruthy : Option String → Bool
  | none => true
  | some s => s != ""

theorem coerceBlank_noneOrTruthy (v : Option String) : noneOrTruthy (coerceBlank v) := by
  rw [coerceBlank]
  cases v with
  | none => simp [truthy, noneOrTruthy]
  | some s =>
    by_cases h : s = "" <;> simp [truthy, noneOrTruthy, h]

theorem coerceBlank_of_truthy {v : Option String} (h : truthy v) : coerceBlank v = v := by
  rw [coerceBlank, if_pos h]

theorem coerceBlank_of_not_truthy {v : Option String} (h : ¬ truthy v) : coerceBlank v = none := by
  rw [coerceBlank, if_neg h]

theorem truthy_coerceBlank (v : Option String) : truthy (coerceBlank v) = truthy v := by
  cases v with
  | none => rfl
  | some s =>
    by_cases h : s = ""
    · subst h; rfl
    · rw [coerceBlank_of_truthy (by simp [truthy, h])]

theorem noneOrTruthy_iff (v : Option String) :
    noneOrTruthy v ↔ (v = none ∨ truthy v) := by
  cases v <;> simp [noneOrTruthy, truthy]

theorem eq_none_of_noneOrTruthy {v : Option String} (hn : noneOrTruthy v) (ht : ¬ truthy v) :
    v = none := by
  rcases (noneOrTruthy_iff v).mp hn with h | h
  · exact h
  · exact absurd h ht

theorem Address.normStep_def (a : Address) :
    a.normStep = a.normCodes.coerceBlanks.swapLines := rfl

theorem Address.coerceBlanks_fields (a : Address) :
    a.coerceBlanks.line1 = coerceBlank a.line1 ∧
    a.coerceBlanks.line2 = coerceBlank a.line2 ∧
    a.coerceBlanks.zip_code = coerceBlank a.zip_code ∧
    a.coerceBlanks.city = coerceBlank a.city ∧
    a.coerceBlanks.country_code = coerceBlank a.country_code ∧
    a.coerceBlanks.subdivision_code = coerceBlank a.subdivision_code :=
  ⟨rfl, rfl, rfl, rfl, rfl, rfl⟩

/-- Claim C1 failing-record evidence record: the `__init__` call of the
spec's round-trip example, with the four valid values. -/
def c1Kwargs : List (String × Option String) :=
  [("line1", some "1 Main St"), ("zip_code", some "12345"),
   ("city", some "Springfield"), ("country_code", some "US")]

/-- C1: the spec says `render()` with the default separator on a record
constructed from valid line1, postal-code, city and country values returns
the expected multi-line block and never fails on a valid record. The code
instead reads `self.state` while building the third line; no `state`
attribute or property exists anywhere in the class, so `render()` raises
`AttributeError` on every record — in particular on the record successfully
constructed from the four valid example values. -/
theorem C1_render_always_raises :
    (∀ (d : TerritoryDirectory) (a : Address) (sep : String),
      a.render d sep = .error (.attributeError "state")) ∧
    (Address.init sampleDir c1Kwargs).map (fun a => a.render sampleDir) =
      .ok (.error (.attributeError "state")) :=
  ⟨fun _ _ _ => rfl, rfl⟩

/-- C2 fails as stated: the third recognized component is named
`zip_code` in the code (`_components`), not `postal_code`; enumerating
the field names therefore does not yield the six names the claim lists. -/
theorem C2_components_not_postal :
    ¬ (Address.keys = ["line1", "line2", "postal_code", "city", "country_code",
        "subdivision_code"]) := by
  decide

/-- C2 (amended): enumerating the recognized field names yields exactly
line1, line2, zip_code, city, country_code, subdivision_code in that fixed
canonical order, the count of recognized fields is the constant 6, and the
(name, value) pair listing follows the same order. -/
theorem C2_components_enumeration :
    Address.keys = ["line1", "line2", "zip_code", "city", "country_code",
      "subdivision_code"] ∧
    Address.len = 6 ∧
    ∀ a : Address, a.items =
      [("line1", a.line1), ("line2", a.line2), ("zip_code", a.zip_code), ("city", a.city),
       ("country_code", a.country_code), ("subdivision_code", a.subdivision_code)] ∧
      a.items.map Prod.fst = Address.keys :=
  ⟨rfl, rfl, fun _ => ⟨rfl, rfl⟩⟩

/-- C3: construction from a mapping holding any key outside the recognized
component set fails with the `KeyError` naming the offending keys, and no
record is produced. -/
theorem C3_unknown_component_rejected (d : TerritoryDirectory)
    (kwargs : List (String × Option String)) (k : String)
    (hk : k ∈ kwargs.map Prod.fst) (hnot : k ∉ Address._components) :
    ∃ l, Address.init d kwargs = .error (.unknownComponents l) ∧ k ∈ l := by
  have hmem : k ∈ (kwargs.map Prod.fst).filter (fun k => ! Address._components.contains k) :=
    List.mem_filter.mpr ⟨hk, by simpa [List.elem_iff] using hnot⟩
  refine ⟨_, ?_, hmem⟩
  simp only [Address.init]
  rw [if_pos (List.ne_nil_of_mem hmem)]

/-- Witness for C3 at the spec's example input `{"zipcode": "12345"}`. -/
theorem C3_witness :
    ∃ l, Address.init sampleDir [("zipcode", some "12345")] =
      .error (.unknownComponents l) ∧ "zipcode" ∈ l :=
  C3_unknown_component_rejected sampleDir [("zipcode", some "12345")] "zipcode"
    (by decide) (by decide)

/-- C9: `territory_codes()` yields every country alpha-2 code followed by
every subdivision code, in that order, with total element count equal to
country count plus subdivision count (no de-duplication, no sorting). -/
theorem C9_territory_codes (d : TerritoryDirectory) :
    territory_codes d = d.countries.map Country.alpha2 ++ d.subdivisions.map Subdivision.code ∧
    (territory_codes d).length = d.countries.length + d.subdivisions.length :=
  ⟨rfl, by simp [territory_codes]⟩

/-- C10: a non-string subscript key fails with `TypeError` (for get and
set alike, before any name check), while a string key outside the
recognized set fails with the `KeyError`; the two failure kinds are
distinguished at the public interface. -/
theorem C10_key_type_vs_unknown (a : Address) (k : PyKey) (s : String) (v : Option String) :
    (k.isStr = false → a.getitem k = .error .typeError ∧ a.setitem k v = .error .typeError) ∧
    (s ∉ Address._components →
      a.getitem (.str s) = .error .keyError ∧ a.setitem (.str s) v = .error .keyError) := by
  constructor
  · intro hk
    cases k with
    | str s2 => simp [PyKey.isStr] at hk
    | int n => exact ⟨rfl, rfl⟩
    | noneKey => exact ⟨rfl, rfl⟩
  · intro hs
    have hc : Address._components.contains s = false := by
      simpa [List.elem_iff] using hs
    constructor
    · simp only [Address.getitem, hc]
      rfl
    · simp only [Address.setitem, hc]
      rfl

/-- Witness for C10: an int key raises `TypeError`, the unknown string key
`"zipcode"` raises `KeyError`, on get and set alike. -/
theorem C10_witness :
    ((Address.mk none none none none none none).getitem (.int 0) = .error .typeError ∧
     (Address.mk none none none none none none).setitem (.int 0) none = .error .typeError) ∧
    ((Address.mk none none none none none none).getitem (.str "zipcode") = .error .keyError ∧
     (Address.mk none none none none none none).setitem (.str "zipcode") none =
       .error .keyError) :=
  ⟨(C10_key_type_vs_unknown (Address.mk none none none none none none) (.int 0) "zipcode"
      none).1 rfl,
   (C10_key_type_vs_unknown (Address.mk none none none none none none) (.int 0) "zipcode"
      none).2 (by decide)⟩

/-- C7: whenever, after the blank-to-absent coercion, `line1` is absent
and `line2` holds a (non-empty) value, the swap step gives that value to
`line1` and leaves `line2` absent; in particular constructing with `line1`
absent, `line2 = "Apt 4"` and the remaining required fields valid yields
`line1 = "Apt 4"` and `line2` absent. -/
theorem C7_line1_swap (a : Address) (v : String)
    (h1 : a.normCodes.coerceBlanks.line1 = none)
    (h2 : a.normCodes.coerceBlanks.line2 = some v) (hv : v ≠ "") :
    (a.normStep.line1 = some v ∧ a.normStep.line2 = none) ∧
    Address.init sampleDir
      [("line2", some "Apt 4"), ("zip_code", some "12345"),
       ("city", some "Springfield"), ("country_code", some "US")] =
      .ok (Address.mk (some "Apt 4") none (some "12345") (some "Springfield")
        (some "US") none) := by
  constructor
  · rw [Address.normStep_def, Address.swapLines]
    have hcond : truthy a.normCodes.coerceBlanks.line2 ∧
        ¬ truthy a.normCodes.coerceBlanks.line1 := by
      rw [h1, h2]
      exact ⟨by simp [truthy, hv], by simp [truthy]⟩
    rw [if_pos hcond]
    exact ⟨h2, h1⟩
  · rfl

/-- Witness for C7 at a record holding only `line2 = "Apt 4"`. -/
theorem C7_witness :
    ((Address.mk none (some "Apt 4") none none none none).normStep.line1 = some "Apt 4" ∧
     (Address.mk none (some "Apt 4") none none none none).normStep.line2 = none) ∧
    Address.init sampleDir
      [("line2", some "Apt 4"), ("zip_code", some "12345"),
       ("city", some "Springfield"), ("country_code", some "US")] =
      .ok (Address.mk (some "Apt 4") none (some "12345") (some "Springfield")
        (some "US") none) :=
  C7_line1_swap (Address.mk none (some "Apt 4") none none none none) "Apt 4" rfl rfl
    (by decide)

theorem pyStripUpper_empty : pyStripUpper "" = "" := rfl

theorem truthy_none : truthy none = false := rfl

theorem truthy_some (s : String) : truthy (some s) = (s != "") := rfl

/-- C5: on a record whose (normalized) subdivision code resolves in the
territory directory while `country_code` is absent, validation succeeds and
sets `country_code` to the subdivision's parent country. -/
theorem C5_derive_country (d : TerritoryDirectory) (a : Address) (s : String) (sub : Subdivision)
    (hl1 : truthy a.line1) (hzip : truthy a.zip_code) (hcity : truthy a.city)
    (hcc : ¬ truthy a.country_code) (hsc : a.subdivision_code = some s)
    (hs : pyStripUpper s ≠ "")
    (hfind : d.findSubdivision (pyStripUpper s) = some sub)
    (hparent : sub.country_code ≠ "") :
    ∃ a', a.validate d = .ok a' ∧ a'.country_code = some sub.country_code := by
  have hs' : s ≠ "" := fun h => hs (by rw [h]; rfl)
  have hmfields : a.normCodes.coerceBlanks = Address.mk (coerceBlank a.line1)
      (coerceBlank a.line2) (coerceBlank a.zip_code) (coerceBlank a.city)
      none (some (pyStripUpper s)) := by
    rw [Address.coerceBlanks]
    rw [Address.normCodes_line1, Address.normCodes_line2, Address.normCodes_zip,
      Address.normCodes_city, Address.normCodes_cc, Address.normCodes_sc]
    rw [if_neg hcc, if_pos (show truthy a.subdivision_code by rw [hsc]; simp [truthy, hs'])]
    rw [coerceBlank_of_not_truthy hcc]
    rw [show a.scStr = s by rw [Address.scStr, hsc]; rfl]
    rw [coerceBlank_of_truthy (show truthy (some (pyStripUpper s)) by simp [truthy, hs])]
  have hnorm : a.normStep = Address.mk (coerceBlank a.line1) (coerceBlank a.line2)
      (coerceBlank a.zip_code) (coerceBlank a.city) none (some (pyStripUpper s)) := by
    rw [Address.normStep_def, hmfields, Address.swapLines, if_neg]
    intro hcon
    exact hcon.2 (by rw [truthy_coerceBlank]; exact hl1)
  refine ⟨Address.mk (coerceBlank a.line1) (coerceBlank a.line2) (coerceBlank a.zip_code)
      (coerceBlank a.city) (some sub.country_code) (some (pyStripUpper s)), ?_, rfl⟩
  have ht1 := truthy_coerceBlank a.line1
  have ht2 := truthy_coerceBlank a.zip_code
  have ht3 := truthy_coerceBlank a.city
  simp only [Address.validate, hnorm, Address.scStr, Address.ccStr, Address.subParent,
    Address.deriveCountry, Address.getComp, Address.getComp?, Address.REQUIRED_FIELDS,
    List.find?, hfind, Option.getD_some, truthy_none, truthy_some, ht1, ht2, ht3,
    hl1, hzip, hcity]
  simp [hs, hparent, hfind, ht1, ht2, ht3, hl1, hzip, hcity, truthy_some]
  rw [show (sub.country_code != "") = true by simp [hparent]]
  rfl

/-- Witness for C5: `subdivision_code = "CA-ON"` without `country_code`
yields `country_code = "CA"`. -/
theorem C5_witness :
    ∃ a', (Address.mk (some "100 Queen St W") none (some "M5H 2N2") (some "Toronto")
      none (some "CA-ON")).validate sampleDir = .ok a' ∧ a'.country_code = some "CA" :=
  C5_derive_country sampleDir
    (Address.mk (some "100 Queen St W") none (some "M5H 2N2") (some "Toronto")
      none (some "CA-ON"))
    "CA-ON" (Subdivision.mk "CA-ON" "Ontario" "Province" "CA")
    (by decide) (by decide) (by decide) (by decide) rfl (by decide) (by decide) (by decide)

/-- Feeding a record's own (name, value) pairs back to the constructor
reconstructs the same record and validates it: `__init__` loads each
component from the mapping and immediately calls `validate()`. -/
theorem Address.init_items (d : TerritoryDirectory) (a : Address) :
    Address.init d a.items = a.validate d := rfl

/-- C6: when both codes are present and resolve in the directory but the
subdivision's parent country differs from `country_code`, validation — and
hence construction from the same component values — fails with the
country-mismatch `ValueError`. -/
theorem C6_country_mismatch (d : TerritoryDirectory) (a : Address) (c s : String)
    (sub : Subdivision) (cty : Country)
    (hcc : a.country_code = some c) (hsc : a.subdivision_code = some s)
    (hc : pyStripUpper c ≠ "") (hs : pyStripUpper s ≠ "")
    (hfc : d.findCountry (pyStripUpper c) = some cty)
    (hfs : d.findSubdivision (pyStripUpper s) = some sub)
    (hne : sub.country_code ≠ pyStripUpper c) :
    a.validate d = .error (.countryMismatch (pyStripUpper c) (pyStripUpper s)) ∧
    Address.init d a.items = .error (.countryMismatch (pyStripUpper c) (pyStripUpper s)) := by
  have hc' : c ≠ "" := fun h => hc (by rw [h]; rfl)
  have hs' : s ≠ "" := fun h => hs (by rw [h]; rfl)
  have hmfields : a.normCodes.coerceBlanks = Address.mk (coerceBlank a.line1)
      (coerceBlank a.line2) (coerceBlank a.zip_code) (coerceBlank a.city)
      (some (pyStripUpper c)) (some (pyStripUpper s)) := by
    rw [Address.coerceBlanks]
    rw [Address.normCodes_line1, Address.normCodes_line2, Address.normCodes_zip,
      Address.normCodes_city, Address.normCodes_cc, Address.normCodes_sc]
    rw [if_pos (show truthy a.country_code by rw [hcc]; simp [truthy, hc'])]
    rw [if_pos (show truthy a.subdivision_code by rw [hsc]; simp [truthy, hs'])]
    rw [show a.ccStr = c by rw [Address.ccStr, hcc]; rfl]
    rw [show a.scStr = s by rw [Address.scStr, hsc]; rfl]
    rw [coerceBlank_of_truthy (show truthy (some (pyStripUpper c)) by simp [truthy, hc])]
    rw [coerceBlank_of_truthy (show truthy (some (pyStripUpper s)) by simp [truthy, hs])]
  have hval : a.validate d = .error (.countryMismatch (pyStripUpper c) (pyStripUpper s)) := by
    simp only [Address.validate, Address.normStep_def, hmfields, Address.swapLines_sc,
      Address.swapLines_cc, Address.scStr, Address.ccStr, Address.subParent,
      Address.deriveCountry, hfs, hfc, Option.getD_some, truthy_some]
    simp [hs, hc, hne, hfs]
    intro hcontra
    have hfalse := hcontra (by simp [truthy_some, hc])
    simp [truthy_some, hs] at hfalse
  exact ⟨hval, by rw [Address.init_items]; exact hval⟩

/-- Witness for C6: `country_code = "FR"` with `subdivision_code = "US-CA"`
fails validation and construction with the country-mismatch error. -/
theorem C6_witness :
    (Address.mk (some "31 Rue de Rivoli") none (some "75001") (some "Paris")
      (some "FR") (some "US-CA")).validate sampleDir =
      .error (.countryMismatch "FR" "US-CA") ∧
    Address.init sampleDir
      (Address.mk (some "31 Rue de Rivoli") none (some "75001") (some "Paris")
        (some "FR") (some "US-CA")).items =
      .error (.countryMismatch "FR" "US-CA") :=
  C6_country_mismatch sampleDir
    (Address.mk (some "31 Rue de Rivoli") none (some "75001") (some "Paris")
      (some "FR") (some "US-CA"))
    "FR" "US-CA" (Subdivision.mk "US-CA" "California" "State" "US") (Country.mk "FR" "France")
    rfl rfl (by decide) (by decide) (by decide) (by decide) (by decide)

/-- C8: after a successful `validate()` each of the four required fields
(line1, the postal-code field `zip_code`, city, country_code) holds a
non-empty value; and whenever the lookup and consistency checks pass but
one of the four is absent after normalization and country derivation,
`validate()` fails with the missing-field `ValueError` naming an absent
required field. -/
theorem C8_required_fields (d : TerritoryDirectory) (a : Address) :
    (∀ a', a.validate d = .ok a' →
      truthy a'.line1 ∧ truthy a'.zip_code ∧ truthy a'.city ∧ truthy a'.country_code) ∧
    ((¬ (truthy a.normStep.subdivision_code ∧ (d.findSubdivision a.normStep.scStr).isNone)) →
     (¬ (truthy a.normStep.country_code ∧ (d.findCountry a.normStep.ccStr).isNone)) →
     (¬ (truthy (a.normStep.deriveCountry d).country_code ∧
         truthy (a.normStep.deriveCountry d).subdivision_code ∧
         (a.normStep.deriveCountry d).subParent d ≠ (a.normStep.deriveCountry d).ccStr)) →
     (∃ f ∈ Address.REQUIRED_FIELDS, ¬ truthy ((a.normStep.deriveCountry d).getComp f)) →
     ∃ g ∈ Address.REQUIRED_FIELDS, a.validate d = .error (.missingField g) ∧
       ¬ truthy ((a.normStep.deriveCountry d).getComp g)) := by
  constructor
  · intro a' h
    simp only [Address.validate] at h
    by_cases h4 : truthy a.normStep.subdivision_code ∧ (d.findSubdivision a.normStep.scStr).isNone
    · rw [if_pos h4] at h
      cases h
    rw [if_neg h4] at h
    by_cases h5 : truthy a.normStep.country_code ∧ (d.findCountry a.normStep.ccStr).isNone
    · rw [if_pos h5] at h
      cases h
    rw [if_neg h5] at h
    by_cases h7 : truthy (a.normStep.deriveCountry d).country_code ∧
        truthy (a.normStep.deriveCountry d).subdivision_code ∧
        (a.normStep.deriveCountry d).subParent d ≠ (a.normStep.deriveCountry d).ccStr
    · rw [if_pos h7] at h
      cases h
    rw [if_neg h7] at h
    rcases hfind : Address.REQUIRED_FIELDS.find?
        (fun f => ! truthy ((a.normStep.deriveCountry d).getComp f)) with _ | f
    · rw [hfind] at h
      simp only [] at h
      have hb : a.normStep.deriveCountry d = a' := by
        simpa using h
      have hall := List.find?_eq_none.mp hfind
      have hL1 := hall "line1" (by decide)
      have hZ := hall "zip_code" (by decide)
      have hC := hall "city" (by decide)
      have hCC := hall "country_code" (by decide)
      rw [hb] at hL1 hZ hC hCC
      simp only [Bool.not_eq_true', Bool.not_eq_false] at hL1 hZ hC hCC
      exact ⟨hL1, hZ, hC, hCC⟩
    · rw [hfind] at h
      simp only [] at h
      cases h
  · intro h4 h5 h7 hmiss
    obtain ⟨f, hf, hft⟩ := hmiss
    have hsome : (Address.REQUIRED_FIELDS.find?
        (fun g => ! truthy ((a.normStep.deriveCountry d).getComp g))).isSome :=
      List.find?_isSome.mpr ⟨f, hf, by simpa using hft⟩
    obtain ⟨g, hg⟩ := Option.isSome_iff_exists.mp hsome
    refine ⟨g, List.mem_of_find?_eq_some hg, ?_, ?_⟩
    · simp only [Address.validate]
      rw [if_neg h4, if_neg h5, if_neg h7, hg]
    · have := List.find?_some hg
      simpa using this

/-- Witness for C8: a fully-populated record validates with all four
required fields non-empty, and a record whose city is absent fails with
the missing-field error naming it. -/
theorem C8_witness :
    (truthy (Address.mk (some "1 Main St") none (some "12345") (some "Springfield")
        (some "US") none).line1 ∧
     truthy (Address.mk (some "1 Main St") none (some "12345") (some "Springfield")
        (some "US") none).zip_code ∧
     truthy (Address.mk (some "1 Main St") none (some "12345") (some "Springfield")
        (some "US") none).city ∧
     truthy (Address.mk (some "1 Main St") none (some "12345") (some "Springfield")
        (some "US") none).country_code) ∧
    (∃ g ∈ Address.REQUIRED_FIELDS,
      (Address.mk (some "1 Main St") none (some "12345") none (some "US") none).validate
        sampleDir = .error (.missingField g) ∧
      ¬ truthy (((Address.mk (some "1 Main St") none (some "12345") none (some "US")
        none).normStep.deriveCountry sampleDir).getComp g)) :=
  ⟨(C8_required_fields sampleDir (Address.mk (some "1 Main St") none (some "12345")
      (some "Springfield") (some "US") none)).1
      (Address.mk (some "1 Main St") none (some "12345") (some "Springfield")
        (some "US") none) rfl,
   (C8_required_fields sampleDir (Address.mk (some "1 Main St") none (some "12345") none
      (some "US") none)).2 (by decide) (by decide) (by decide)
      ⟨"city", by decide, by decide⟩⟩

/-- Well-formedness of the reference data, true of the real pycountry
tables: every subdivision's parent-country code is already in normalized
form, non-empty, and resolvable among the countries. -/
def TerritoryDirectory.WF (d : TerritoryDirectory) : Prop :=
  ∀ sub ∈ d.subdivisions, pyStripUpper sub.country_code = sub.country_code ∧
    sub.country_code ≠ "" ∧ (d.findCountry sub.country_code).isSome

theorem coerceBlank_of_noneOrTruthy {v : Option String} (h : noneOrTruthy v) :
    coerceBlank v = v := by
  rcases (noneOrTruthy_iff v).mp h with h | h
  · rw [h]; rfl
  · exact coerceBlank_of_truthy h

theorem isSome_of_not_isNone {α : Type} {o : Option α} (h : ¬ o.isNone = true) :
    o.isSome := by
  cases o with
  | none => exact absurd rfl h
  | some _ => rfl

theorem Address.deriveCountry_line1 (d : TerritoryDirectory) (a : Address) :
    (a.deriveCountry d).line1 = a.line1 := by
  rw [Address.deriveCountry]; split <;> rfl

theorem Address.deriveCountry_line2 (d : TerritoryDirectory) (a : Address) :
    (a.deriveCountry d).line2 = a.line2 := by
  rw [Address.deriveCountry]; split <;> rfl

theorem Address.deriveCountry_zip (d : TerritoryDirectory) (a : Address) :
    (a.deriveCountry d).zip_code = a.zip_code := by
  rw [Address.deriveCountry]; split <;> rfl

theorem Address.deriveCountry_city (d : TerritoryDirectory) (a : Address) :
    (a.deriveCountry d).city = a.city := by
  rw [Address.deriveCountry]; split <;> rfl

theorem Address.deriveCountry_sc (d : TerritoryDirectory) (a : Address) :
    (a.deriveCountry d).subdivision_code = a.subdivision_code := by
  rw [Address.deriveCountry]; split <;> rfl

theorem Address.normStep_noneOrTruthy (a : Address) :
    noneOrTruthy a.normStep.line1 ∧ noneOrTruthy a.normStep.line2 ∧
    noneOrTruthy a.normStep.zip_code ∧ noneOrTruthy a.normStep.city ∧
    noneOrTruthy a.normStep.country_code ∧ noneOrTruthy a.normStep.subdivision_code := by
  rw [Address.normStep_def, Address.swapLines]
  split
  · exact ⟨coerceBlank_noneOrTruthy _, coerceBlank_noneOrTruthy _, coerceBlank_noneOrTruthy _,
      coerceBlank_noneOrTruthy _, coerceBlank_noneOrTruthy _, coerceBlank_noneOrTruthy _⟩
  · exact ⟨coerceBlank_noneOrTruthy _, coerceBlank_noneOrTruthy _, coerceBlank_noneOrTruthy _,
      coerceBlank_noneOrTruthy _, coerceBlank_noneOrTruthy _, coerceBlank_noneOrTruthy _⟩

theorem Address.normStep_cc_shape (a : Address) :
    a.normStep.country_code = none ∨
    ∃ c₀, a.normStep.country_code = some (pyStripUpper c₀) ∧ pyStripUpper c₀ ≠ "" := by
  have h1 : a.normStep.country_code = coerceBlank a.normCodes.country_code := by
    rw [Address.normStep_def, Address.swapLines_cc]
    rfl
  rw [h1, Address.normCodes_cc]
  by_cases ht : truthy a.country_code
  · rw [if_pos ht]
    by_cases he : pyStripUpper a.ccStr = ""
    · left
      rw [coerceBlank, if_neg]
      simp [truthy_some, he]
    · right
      exact ⟨a.ccStr, by rw [coerceBlank_of_truthy (by simp [truthy_some, he])], he⟩
  · rw [if_neg ht]
    exact Or.inl (coerceBlank_of_not_truthy ht)

theorem Address.normStep_sc_shape (a : Address) :
    a.normStep.subdivision_code = none ∨
    ∃ s₀, a.normStep.subdivision_code = some (pyStripUpper s₀) ∧ pyStripUpper s₀ ≠ "" := by
  have h1 : a.normStep.subdivision_code = coerceBlank a.normCodes.subdivision_code := by
    rw [Address.normStep_def, Address.swapLines_sc]
    rfl
  rw [h1, Address.normCodes_sc]
  by_cases ht : truthy a.subdivision_code
  · rw [if_pos ht]
    by_cases he : pyStripUpper a.scStr = ""
    · left
      rw [coerceBlank, if_neg]
      simp [truthy_some, he]
    · right
      exact ⟨a.scStr, by rw [coerceBlank_of_truthy (by simp [truthy_some, he])], he⟩
  · rw [if_neg ht]
    exact Or.inl (coerceBlank_of_not_truthy ht)

/-- Shape of a record after a successful `validate()` on a well-formed
directory: required fields non-empty, every field `None`-or-non-empty,
ISO codes fixed points of `strip().upper()`, resolvable in the directory,
and mutually consistent. -/
structure Address.Normalized (d : TerritoryDirectory) (a : Address) : Prop where
  hl1 : truthy a.line1
  hl2 : noneOrTruthy a.line2
  hzip : truthy a.zip_code
  hcity : truthy a.city
  hcc : ∃ c, a.country_code = some c ∧ c ≠ "" ∧ pyStripUpper c = c ∧ (d.findCountry c).isSome
  hsc : a.subdivision_code = none ∨
    ∃ s sub, a.subdivision_code = some s ∧ s ≠ "" ∧ pyStripUpper s = s ∧
      d.findSubdivision s = some sub ∧ sub.country_code = a.ccStr

theorem Address.validate_ok_normalized {d : TerritoryDirectory} {a a' : Address}
    (hwf : d.WF) (h : a.validate d = .ok a') : a'.Normalized d := by
  simp only [Address.validate] at h
  by_cases h4 : truthy a.normStep.subdivision_code ∧ (d.findSubdivision a.normStep.scStr).isNone
  · rw [if_pos h4] at h; cases h
  rw [if_neg h4] at h
  by_cases h5 : truthy a.normStep.country_code ∧ (d.findCountry a.normStep.ccStr).isNone
  · rw [if_pos h5] at h; cases h
  rw [if_neg h5] at h
  by_cases h7 : truthy (a.normStep.deriveCountry d).country_code ∧
      truthy (a.normStep.deriveCountry d).subdivision_code ∧
      (a.normStep.deriveCountry d).subParent d ≠ (a.normStep.deriveCountry d).ccStr
  · rw [if_pos h7] at h; cases h
  rw [if_neg h7] at h
  rcases hfind : Address.REQUIRED_FIELDS.find?
      (fun f => ! truthy ((a.normStep.deriveCountry d).getComp f)) with _ | f
  · rw [hfind] at h
    simp only [] at h
    have hb : a.normStep.deriveCountry d = a' := by simpa using h
    have hall := List.find?_eq_none.mp hfind
    have hL1 : truthy ((a.normStep.deriveCountry d).getComp "line1") := by
      simpa using hall "line1" (by decide)
    have hZ : truthy ((a.normStep.deriveCountry d).getComp "zip_code") := by
      simpa using hall "zip_code" (by decide)
    have hC : truthy ((a.normStep.deriveCountry d).getComp "city") := by
      simpa using hall "city" (by decide)
    have hCC : truthy ((a.normStep.deriveCountry d).getComp "country_code") := by
      simpa using hall "country_code" (by decide)
    subst hb
    refine ⟨hL1, ?_, hZ, hC, ?_, ?_⟩
    · rw [Address.deriveCountry_line2]
      exact (Address.normStep_noneOrTruthy a).2.1
    · by_cases hder : truthy a.normStep.subdivision_code ∧ ¬ truthy a.normStep.country_code
      · have hbder : a.normStep.deriveCountry d =
            { a.normStep with country_code := some (a.normStep.subParent d) } := by
          rw [Address.deriveCountry, if_pos hder]
        have hts := hder.1
        have hsNone : ¬ (d.findSubdivision a.normStep.scStr).isNone = true :=
          fun hn => h4 ⟨hts, hn⟩
        obtain ⟨sub, hsub⟩ := Option.isSome_iff_exists.mp (isSome_of_not_isNone hsNone)
        have hmem : sub ∈ d.subdivisions := List.mem_of_find?_eq_some hsub
        obtain ⟨hfix, hne0, hfc⟩ := hwf sub hmem
        refine ⟨sub.country_code, ?_, hne0, hfix, hfc⟩
        rw [hbder]
        show some (a.normStep.subParent d) = some sub.country_code
        rw [Address.subParent, hsub]
        rfl
      · have hbid : a.normStep.deriveCountry d = a.normStep := by
          rw [Address.deriveCountry, if_neg hder]
        rcases Address.normStep_cc_shape a with hnone | ⟨c₀, hsome, hne⟩
        · rw [hbid] at hCC
          have hCC2 : truthy a.normStep.country_code := hCC
          rw [hnone] at hCC2
          exact absurd hCC2 (by simp [truthy_none])
        · refine ⟨pyStripUpper c₀, by rw [hbid]; exact hsome, hne, pyStripUpper_fix c₀, ?_⟩
          have htc : truthy a.normStep.country_code := by
            rw [hsome]; simp [truthy_some, hne]
          have hcNone : ¬ (d.findCountry a.normStep.ccStr).isNone = true :=
            fun hn => h5 ⟨htc, hn⟩
          have hfc := isSome_of_not_isNone hcNone
          rw [show a.normStep.ccStr = pyStripUpper c₀ by rw [Address.ccStr, hsome]; rfl] at hfc
          exact hfc
    · rcases Address.normStep_sc_shape a with hnone | ⟨s₀, hsome, hne⟩
      · exact Or.inl (by rw [Address.deriveCountry_sc, hnone])
      · right
        have hts : truthy a.normStep.subdivision_code := by
          rw [hsome]; simp [truthy_some, hne]
        have hsNone : ¬ (d.findSubdivision a.normStep.scStr).isNone = true :=
          fun hn => h4 ⟨hts, hn⟩
        obtain ⟨sub, hsub⟩ := Option.isSome_iff_exists.mp (isSome_of_not_isNone hsNone)
        have hscStr : a.normStep.scStr = pyStripUpper s₀ := by
          rw [Address.scStr, hsome]; rfl
        refine ⟨pyStripUpper s₀, sub, ?_, hne, pyStripUpper_fix s₀, ?_, ?_⟩
        · rw [Address.deriveCountry_sc, hsome]
        · rw [← hscStr]; exact hsub
        · by_cases hder : truthy a.normStep.subdivision_code ∧ ¬ truthy a.normStep.country_code
          · have hbder : a.normStep.deriveCountry d =
                { a.normStep with country_code := some (a.normStep.subParent d) } := by
              rw [Address.deriveCountry, if_pos hder]
            rw [hbder]
            show sub.country_code = (some (a.normStep.subParent d)).getD ""
            rw [Address.subParent, hsub]
            rfl
          · have hbid : a.normStep.deriveCountry d = a.normStep := by
              rw [Address.deriveCountry, if_neg hder]
            have htc : truthy a.normStep.country_code := by
              by_contra hq
              exact hder ⟨hts, hq⟩
            rw [hbid] at h7
            have heqp : a.normStep.subParent d = a.normStep.ccStr := by
              by_contra hq
              exact h7 ⟨htc, hts, hq⟩
            rw [hbid, ← heqp, Address.subParent, hsub]
            rfl
  · rw [hfind] at h
    simp only [] at h
    cases h

theorem isNone_eq_false_of_isSome {α : Type} {o : Option α} (h : o.isSome) :
    o.isNone = false := by
  cases o with
  | none => cases h
  | some _ => rfl

theorem Address.validate_of_normalized {d : TerritoryDirectory} {a : Address}
    (h : a.Normalized d) : a.validate d = .ok a := by
  obtain ⟨hl1, hl2, hzip, hcity, ⟨c, hcceq, hc0, hcfix, hcfind⟩, hsc⟩ := h
  have htc : truthy a.country_code := by rw [hcceq]; simp [truthy_some, hc0]
  have hccStr : a.ccStr = c := by rw [Address.ccStr, hcceq]; rfl
  have hscNoT : noneOrTruthy a.subdivision_code := by
    rcases hsc with hnone | ⟨s, sub, hsceq, hs0, _, _, _⟩
    · rw [hnone]; rfl
    · rw [hsceq]; simp [noneOrTruthy, hs0]
  have hnc : a.normCodes = a := by
    simp only [Address.normCodes]
    rw [if_pos htc, hccStr, hcfix]
    have e1 : ({ a with country_code := some c } : Address) = a := by
      rw [← hcceq]
    rw [e1]
    rcases hsc with hnone | ⟨s, sub, hsceq, hs0, hsfix, hsfind, hpar⟩
    · rw [if_neg (by rw [hnone]; simp [truthy_none])]
    · rw [if_pos (show truthy a.subdivision_code by rw [hsceq]; simp [truthy_some, hs0])]
      rw [show a.scStr = s by rw [Address.scStr, hsceq]; rfl, hsfix]
      rw [← hsceq]
  have hcb : a.coerceBlanks = a := by
    rw [Address.coerceBlanks]
    rw [coerceBlank_of_truthy hl1, coerceBlank_of_noneOrTruthy hl2,
      coerceBlank_of_truthy hzip, coerceBlank_of_truthy hcity,
      coerceBlank_of_truthy htc, coerceBlank_of_noneOrTruthy hscNoT]
  have hsw : a.swapLines = a := by
    rw [Address.swapLines, if_neg]
    intro hcon
    exact hcon.2 hl1
  have hns : a.normStep = a := by
    rw [Address.normStep_def, hnc, hcb, hsw]
  have hder : a.deriveCountry d = a := by
    rw [Address.deriveCountry, if_neg]
    intro hcon
    exact hcon.2 htc
  simp only [Address.validate, hns, hder]
  rw [if_neg (show ¬ (truthy a.subdivision_code ∧ (d.findSubdivision a.scStr).isNone) from ?_)]
  rotate_left
  · rcases hsc with hnone | ⟨s, sub, hsceq, hs0, hsfix, hsfind, hpar⟩
    · rw [hnone]; simp [truthy_none]
    · intro hcon
      rw [show a.scStr = s by rw [Address.scStr, hsceq]; rfl, hsfind] at hcon
      cases hcon.2
  rw [if_neg (show ¬ (truthy a.country_code ∧ (d.findCountry a.ccStr).isNone) from ?_)]
  rotate_left
  · intro hcon
    rw [hccStr] at hcon
    rw [isNone_eq_false_of_isSome hcfind] at hcon
    cases hcon.2
  rw [if_neg (show ¬ (truthy a.country_code ∧ truthy a.subdivision_code ∧
      a.subParent d ≠ a.ccStr) from ?_)]
  rotate_left
  · rcases hsc with hnone | ⟨s, sub, hsceq, hs0, hsfix, hsfind, hpar⟩
    · intro hcon
      rw [hnone] at hcon
      exact absurd hcon.2.1 (by simp [truthy_none])
    · intro hcon
      apply hcon.2.2
      rw [Address.subParent, show a.scStr = s by rw [Address.scStr, hsceq]; rfl, hsfind]
      exact hpar
  rw [show Address.REQUIRED_FIELDS.find? (fun f => ! truthy (a.getComp f)) = none from ?_]
  · rw [List.find?_eq_none]
    intro x hx
    have hx' : x = "line1" ∨ x = "zip_code" ∨ x = "city" ∨ x = "country_code" := by
      simpa [Address.REQUIRED_FIELDS] using hx
    rcases hx' with rfl | rfl | rfl | rfl
    · simpa using hl1
    · simpa using hzip
    · simpa using hcity
    · simpa using htc

/-- C4: on a well-formed directory (which the real pycountry data is), if
`validate()` succeeds on a record, running it a second time succeeds and
leaves every field value unchanged. -/
theorem C4_validate_idempotent (d : TerritoryDirectory) (a a' : Address)
    (hwf : d.WF) (h : a.validate d = .ok a') : a'.validate d = .ok a' :=
  Address.validate_of_normalized (Address.validate_ok_normalized hwf h)

/-- Witness for C4 at a record that needs both code normalization and
country derivation: a second `validate()` run reproduces the result. -/
theorem C4_witness :
    (Address.mk (some "1 Main St") none (some "M5H 2N2") (some "Toronto") (some "CA")
      (some "CA-ON")).validate sampleDir =
      .ok (Address.mk (some "1 Main St") none (some "M5H 2N2") (some "Toronto")
        (some "CA") (some "CA-ON")) :=
  C4_validate_idempotent sampleDir
    (Address.mk (some "1 Main St") none (some "M5H 2N2") (some "Toronto") none
      (some " ca-on "))
    (Address.mk (some "1 Main St") none (some "M5H 2N2") (some "Toronto") (some "CA")
      (some "CA-ON"))
    (by simp only [TerritoryDirectory.WF]; decide) rfl
